import Mathlib

/-!
Verification of the open-webui diagnostic probe scripts.

The repository consists of standalone Python scripts that issue HTTP requests
against a text-generation server (vLLM) and a web front-end (OpenWebUI) and
classify the outcome of each call.  The network is the only source of
nondeterminism, so each script is embedded as a pure function from the
outcome of its HTTP calls (`HttpOutcome`) to the result value the Python code
produces.  JSON bodies are modelled by the inductive `Json`; the dynamic
attribute/subscript operations the scripts perform on parsed JSON are modelled
by `Except`-valued helpers that mirror which Python operations raise.
-/

namespace OpenWebUIProbe

/-- JSON values, as produced by `response.json()` in the scripts.
Objects are association lists of string keys (Python dict keys are unique;
lookup returns the first binding). Numbers are modelled as integers, which
covers every value the claims mention. -/
inductive Json where
  | null
  | bool (b : Bool)
  | num (n : Int)
  | str (s : String)
  | arr (elems : List Json)
  | obj (fields : List (String × Json))

/-- Lookup of a key in a JSON object's field list (Python `dict` lookup). -/
def jlookup (fields : List (String × Json)) (k : String) : Option Json :=
  match fields with
  | [] => none
  | (key, v) :: rest => if key = k then some v else jlookup rest k

/-- The body of an HTTP response as the scripts observe it:
`empty` — `response.content` is falsy, `response.text` is `""` and
`response.json()` raises; `jsonBody raw j` — non-empty text `raw` that parses
to `j`; `malformed raw` — non-empty text `raw` on which `response.json()`
raises `JSONDecodeError`. -/
inductive Body where
  | empty
  | jsonBody (raw : String) (j : Json)
  | malformed (raw : String)

/-- The `response.text` attribute. -/
def Body.text : Body → String
  | Body.empty => ""
  | Body.jsonBody raw _ => raw
  | Body.malformed raw => raw

/-- The result of calling `response.json()`: `some` parsed value, or `none`
when the call raises `JSONDecodeError`. -/
def Body.jsonParse : Body → Option Json
  | Body.empty => none
  | Body.jsonBody _ j => some j
  | Body.malformed _ => none

/-- Everything a single `requests.get`/`requests.post` call can do, from the
caller's point of view: deliver a response with a status code and a body, or
raise `requests.exceptions.ConnectionError`, `requests.exceptions.Timeout`,
or any other exception (each carrying its `str(e)` message). -/
inductive HttpOutcome where
  | resp (status : Nat) (body : Body)
  | connError (msg : String)
  | timeoutErr (msg : String)
  | otherExc (msg : String)

/-- Message model for `str` of a `json.JSONDecodeError`, as raised by
`response.json()` on an empty or unparseable body. -/
def jsonDecodeErrorMsg : String := "Expecting value: line 1 column 1 (char 0)"

/-- The dict returned by `VLLMChecker.check_health` in check_vllm.py:
a `status` string plus the optional `response` / `error` entries. -/
structure HealthResult where
  status : String
  response : Option Json := none
  error : Option String := none

/-- The dict returned by `VLLMChecker.get_models` in check_vllm.py. -/
structure ModelsResult where
  status : String
  models : Option Json := none
  error : Option String := none

/-- The dict returned by `VLLMChecker.generate_text` in check_vllm.py.
`generated_text` holds whatever JSON value the extraction chain produced
(Python applies no string conversion to it). -/
structure GenResult where
  status : String
  response : Option Json := none
  generated_text : Option Json := none
  error : Option String := none

/-- `VLLMChecker.check_health` (check_vllm.py lines 25-53), as a function of
the outcome of its single `session.get(f"{base_url}/health")` call.
A 200 response with empty content yields the default OK marker; a 200
response with a parseable body yields the parsed JSON; a 200 response whose
body fails to parse makes `response.json()` raise, which the final
`except Exception` clause turns into an `error` result.  Every exception is
caught, so the function is total. -/
def check_health (o : HttpOutcome) : HealthResult :=
  match o with
  | HttpOutcome.resp status body =>
    if status = 200 then
      match body with
      | Body.empty =>
        { status := "healthy", response := some (Json.obj [("message", Json.str "OK")]) }
      | Body.jsonBody _ j => { status := "healthy", response := some j }
      | Body.malformed _ => { status := "error", error := some jsonDecodeErrorMsg }
    else
      { status := "unhealthy", error := some ("HTTP " ++ toString status ++ ": " ++ body.text) }
  | HttpOutcome.connError _ =>
    { status := "unreachable", error := some "Cannot connect to vLLM service. Is it running?" }
  | HttpOutcome.timeoutErr _ => { status := "timeout", error := some "Request timed out" }
  | HttpOutcome.otherExc e => { status := "error", error := some e }

/-- `VLLMChecker.get_models` (check_vllm.py lines 55-73).  Only two status
tags occur: `"success"` on a 200 response whose body parses, and `"error"`
in every other case (non-200 response, decode failure, or any exception,
connection errors and timeouts included — this function has only the one
`except Exception` clause). -/
def get_models (o : HttpOutcome) : ModelsResult :=
  match o with
  | HttpOutcome.resp status body =>
    if status = 200 then
      match body.jsonParse with
      | some j => { status := "success", models := some j }
      | none => { status := "error", error := some jsonDecodeErrorMsg }
    else
      { status := "error", error := some ("HTTP " ++ toString status ++ ": " ++ body.text) }
  | HttpOutcome.connError e => { status := "error", error := some e }
  | HttpOutcome.timeoutErr e => { status := "error", error := some e }
  | HttpOutcome.otherExc e => { status := "error", error := some e }

/-- Python `value.get(key, default)`: returns the bound value or the default
on a dict, and raises `AttributeError` on any non-dict value. -/
def pyGet (j : Json) (k : String) (d : Json) : Except String Json :=
  match j with
  | Json.obj fields => Except.ok ((jlookup fields k).getD d)
  | _ => Except.error "AttributeError: no attribute get"

/-- Python `value[key]` for a string key: returns the bound value on a dict,
raises `KeyError` when the key is absent, and raises `TypeError` on any
other value. -/
def pySubscript (j : Json) (k : String) : Except String Json :=
  match j with
  | Json.obj fields =>
    match jlookup fields k with
    | some v => Except.ok v
    | none => Except.error ("KeyError: " ++ k)
  | _ => Except.error "TypeError: value is not subscriptable with a string key"

/-- Python `value[0]`: first element of a list, first character of a string,
`IndexError` when empty, `TypeError`/`KeyError` on other values. -/
def pyIndexZero (j : Json) : Except String Json :=
  match j with
  | Json.arr (x :: _) => Except.ok x
  | Json.arr [] => Except.error "list index out of range"
  | Json.str s =>
    match s.data with
    | c :: _ => Except.ok (Json.str (String.mk [c]))
    | [] => Except.error "string index out of range"
  | _ => Except.error "TypeError: value is not subscriptable with an index"

/-- The extraction chain of check_vllm.py line 99:
`result.get("choices", [{}])[0].get("message", {}).get("content", "")`.
The default `[{}]` only protects against a missing `choices` key; a present
but empty `choices` list reaches `[0]` and raises `IndexError`. -/
def extract_generated_text (result : Json) : Except String Json :=
  Except.bind (pyGet result "choices" (Json.arr [Json.obj []])) (fun choices =>
    Except.bind (pyIndexZero choices) (fun first =>
      Except.bind (pyGet first "message" (Json.obj [])) (fun message =>
        pyGet message "content" (Json.str ""))))

/-- `VLLMChecker.generate_text` (check_vllm.py lines 75-110) as a function of
the outcome of its `session.post(f"{base_url}/v1/chat/completions", ...)`
call.  On 200 the body is parsed and the `choices[0].message.content` chain
is evaluated while building the success dict; any exception in parsing or
extraction is caught by the single `except Exception` clause, as is any
request exception, so only `"success"` and `"error"` statuses occur. -/
def generate_text (o : HttpOutcome) : GenResult :=
  match o with
  | HttpOutcome.resp status body =>
    if status = 200 then
      match body.jsonParse with
      | some result =>
        match extract_generated_text result with
        | Except.ok t =>
          { status := "success", response := some result, generated_text := some t }
        | Except.error e => { status := "error", error := some e }
      | none => { status := "error", error := some jsonDecodeErrorMsg }
    else
      { status := "error", error := some ("HTTP " ++ toString status ++ ": " ++ body.text) }
  | HttpOutcome.connError e => { status := "error", error := some e }
  | HttpOutcome.timeoutErr e => { status := "error", error := some e }
  | HttpOutcome.otherExc e => { status := "error", error := some e }

/-- Python `s.rstrip(c)` for a single strip character: removes every trailing
occurrence of the character. Used by `VLLMChecker.__init__` with `'/'`. -/
def rstripSlash (s : String) : String :=
  String.mk ((s.data.reverse.dropWhile (fun c => c == '/')).reverse)

/-- The state a `VLLMChecker` object carries after `__init__`
(check_vllm.py lines 20-23): the normalized base URL and the `timeout`
attribute assigned onto the `requests.Session` object. -/
structure VLLMChecker where
  base_url : String
  session_timeout_attr : Option Nat

/-- `VLLMChecker.__init__`: stores `base_url.rstrip('/')` and sets
`self.session.timeout = 30` (an attribute on the Session object). -/
def VLLMChecker.make (base_url : String) : VLLMChecker :=
  { base_url := rstripSlash base_url, session_timeout_attr := some 30 }

/-- A dispatched HTTP request: its URL and the `timeout=` keyword argument
passed at the call site (`none` when the call site passes no timeout). -/
structure HttpRequest where
  url : String
  timeout_kwarg : Option Nat

/-- Effective timeout the `requests` library applies when dispatching a
request: exactly the per-call `timeout=` keyword argument.  A `timeout`
attribute assigned onto a `requests.Session` object is not consulted by
`Session.request`, so it does not bound the call. -/
def effective_timeout (r : HttpRequest) : Option Nat := r.timeout_kwarg

/-- The request issued by `VLLMChecker.check_health` (line 28):
`self.session.get(f"{self.base_url}/health")`, no timeout keyword. -/
def health_request (c : VLLMChecker) : HttpRequest :=
  { url := c.base_url ++ "/health", timeout_kwarg := none }

/-- The request issued by `VLLMChecker.get_models` (line 58):
`self.session.get(f"{self.base_url}/v1/models")`, no timeout keyword. -/
def models_request (c : VLLMChecker) : HttpRequest :=
  { url := c.base_url ++ "/v1/models", timeout_kwarg := none }

/-- The request issued by `VLLMChecker.generate_text` (lines 88-92):
`self.session.post(f"{self.base_url}/v1/chat/completions", ...)`,
no timeout keyword. -/
def chat_request (c : VLLMChecker) : HttpRequest :=
  { url := c.base_url ++ "/v1/chat/completions", timeout_kwarg := none }

/-- The request issued by simple_vllm_test.py line 28:
`requests.post(url, json=payload, timeout=30)`. -/
def simple_test_request : HttpRequest :=
  { url := "http://localhost:8000/v1/chat/completions", timeout_kwarg := some 30 }

/-- The request issued by check_openwebui_models.py line 23:
`requests.get(base_url, timeout=10)`. -/
def owui_root_request : HttpRequest :=
  { url := "http://localhost:8080", timeout_kwarg := some 10 }

/-- The request issued by check_openwebui_models.py line 35:
`requests.get("http://localhost:8000/v1/models", timeout=10)`. -/
def owui_vllm_models_request : HttpRequest :=
  { url := "http://localhost:8000/v1/models", timeout_kwarg := some 10 }

/-- Whether Python `len(value)` succeeds (strings, lists and dicts have a
length; numbers, booleans and `None` raise `TypeError`). -/
def pyLenOk : Json → Bool
  | Json.str _ => true
  | Json.arr _ => true
  | Json.obj _ => true
  | _ => false

/-- Whether Python `value[:n]` succeeds (strings and lists are sliceable;
dicts, numbers, booleans and `None` raise `TypeError`). -/
def pySliceOk : Json → Bool
  | Json.str _ => true
  | Json.arr _ => true
  | _ => false

/-- Whether `for model in value: model.get(...)` completes without raising:
the value must be iterable and every produced element must be a dict.
Iterating a list yields its elements; iterating a string yields one-character
strings; iterating a dict yields its string keys; other values raise
`TypeError` at the loop head. -/
def iterGetOk : Json → Bool
  | Json.arr l => l.all (fun e => match e with | Json.obj _ => true | _ => false)
  | Json.str s => s.isEmpty
  | Json.obj fields => fields.isEmpty
  | _ => false

/-- Whether the models report block of `run_comprehensive_test`
(check_vllm.py lines 136-139) completes without raising, given the parsed
models JSON: it evaluates `models_result['models'].get('data', [])`, takes
its `len`, and calls `.get('id', 'Unknown')` on each element. -/
def modelsPrintOk (mj : Json) : Bool :=
  match mj with
  | Json.obj fields =>
    let data := (jlookup fields "data").getD (Json.arr [])
    pyLenOk data && iterGetOk data
  | _ => false

/-- Whether the models step of `run_comprehensive_test` completes without
raising: the report block only runs when the status is `"success"`. -/
def modelsStepOk (m : ModelsResult) : Bool :=
  if m.status = "success" then modelsPrintOk (m.models.getD Json.null) else true

/-- Whether the generation report block of `run_comprehensive_test`
(check_vllm.py lines 148-152 and 159-163) completes without raising: on a
success result it slices `generated_text[:n]` and takes its `len`, which
raises `TypeError` when the extracted content is not a string or a list. -/
def genPrintOk (r : GenResult) : Bool :=
  if r.status = "success" then
    match r.generated_text with
    | some t => pySliceOk t
    | none => true
  else true

/-- The outcomes of the four HTTP calls a full run of check_vllm.py can
issue: the health GET, the models GET, and the two generation POSTs. -/
structure World where
  health : HttpOutcome
  models : HttpOutcome
  gen1 : HttpOutcome
  gen2 : HttpOutcome

/-- `VLLMChecker.run_comprehensive_test` (check_vllm.py lines 112-165),
reduced to the `(test name, status)` pairs recorded in `results["tests"]`.
When the health status is not `"healthy"` the method returns immediately
with only the health entry (lines 127-129); otherwise it records the models
and the two generation results.  `Except.error` models a `TypeError` raised
while printing a report line (which propagates out of the method), as
captured by `modelsStepOk` / `genPrintOk`. -/
def run_comprehensive_test (w : World) : Except String (List (String × String)) :=
  let h := check_health w.health
  if h.status ≠ "healthy" then Except.ok [("health", h.status)]
  else
    let m := get_models w.models
    if modelsStepOk m then
      let g1 := generate_text w.gen1
      if genPrintOk g1 then
        let g2 := generate_text w.gen2
        if genPrintOk g2 then
          Except.ok [("health", h.status), ("models", m.status),
            ("simple_generation", g1.status), ("complex_generation", g2.status)]
        else Except.error "TypeError while printing the complex generation result"
      else Except.error "TypeError while printing the simple generation result"
    else Except.error "TypeError while printing the models report"

/-- Number of tests `main` counts as passed (check_vllm.py lines 190-193):
those whose status is `"success"` or `"healthy"`. -/
def countSuccessful (tests : List (String × String)) : Nat :=
  tests.countP (fun t => t.2 == "success" || t.2 == "healthy")

/-- `main` of check_vllm.py (lines 186-207) composed with
`sys.exit(exit_code)` (line 212): the process exit code, as a function of
the four call outcomes.  `Except.ok n` is a normal `sys.exit(n)`;
`Except.error` models an exception escaping `run_comprehensive_test`
uncaught (the interpreter then terminates with a traceback). -/
def main_exit_code (w : World) : Except String Nat :=
  match run_comprehensive_test w with
  | Except.error e => Except.error e
  | Except.ok tests =>
    Except.ok (if countSuccessful tests = tests.length then 0 else 1)

/-- The base URL `main` selects (check_vllm.py lines 174-176): the default
`"http://localhost:8000"` unless `len(sys.argv) > 1`, in which case
`sys.argv[1]`.  The argument list includes the program name at index 0. -/
def main_base_url (argv : List String) : String :=
  match argv with
  | _ :: arg1 :: _ => arg1
  | _ => "http://localhost:8000"

/-- The `VLLMChecker` object `main` constructs (check_vllm.py line 178). -/
def main_checker (argv : List String) : VLLMChecker :=
  VLLMChecker.make (main_base_url argv)

/-- The strict extraction `result["choices"][0]["message"]["content"]` used
by simple_vllm_test.py line 32 (every step raises when its shape is absent). -/
def extract_content_strict (result : Json) : Except String Json :=
  Except.bind (pySubscript result "choices") (fun choices =>
    Except.bind (pyIndexZero choices) (fun first =>
      Except.bind (pySubscript first "message") (fun message =>
        pySubscript message "content")))

/-- `test_vllm_simple` (simple_vllm_test.py lines 13-46) as a function of
the outcome of its single POST: `True` only on a 200 response whose body
parses and contains the full `choices[0].message.content` shape; every
exception (connection error included) is caught and yields `False`. -/
def test_vllm_simple (o : HttpOutcome) : Bool :=
  match o with
  | HttpOutcome.resp status body =>
    if status = 200 then
      match body.jsonParse with
      | some result =>
        match extract_content_strict result with
        | Except.ok _ => true
        | Except.error _ => false
      | none => false
    else false
  | _ => false

/-- The `__main__` block of simple_vllm_test.py (lines 49-54): it calls
`test_vllm_simple`, prints one of two messages depending on the result, and
falls off the end of the script without calling `sys.exit`, so the
interpreter's exit status is 0 in both branches. -/
def simple_main_exit_code (o : HttpOutcome) : Nat :=
  if test_vllm_simple o then 0 else 0

/-- Per-model record built from one element of the `data` array, following
the loop of check_openwebui_models.py lines 39-40: `model['id']` is a
required subscript (raises `KeyError` when absent) and
`model.get('max_model_len', 'unknown')` is optional (`none` models the
absent case, which the script prints as `'unknown'`). -/
structure ModelInfo where
  id : Json
  max_model_len : Option Json

/-- Extraction of a `ModelInfo` from one element of the `data` array
(check_openwebui_models.py lines 39-40); raises on a non-dict element or a
missing `id` key. -/
def extractModelInfo (model : Json) : Except String ModelInfo :=
  match model with
  | Json.obj fields =>
    match jlookup fields "id" with
    | some i => Except.ok { id := i, max_model_len := jlookup fields "max_model_len" }
    | none => Except.error "KeyError: id"
  | _ => Except.error "TypeError: element is not subscriptable"

/-- Mapping of every element of the `data` array to a `ModelInfo`
(the loop of check_openwebui_models.py lines 39-40). -/
def modelInfos (data : List Json) : Except String (List ModelInfo) :=
  data.mapM extractModelInfo

/-- Whether the `for model in models['data']: model['id']` loop of
check_openwebui_models.py (lines 39-40) completes without raising: every
iterated element must be a dict containing an `id` key. -/
def iterSubscriptIdOk : Json → Bool
  | Json.arr l =>
    l.all (fun e =>
      match e with
      | Json.obj fields => (jlookup fields "id").isSome
      | _ => false)
  | Json.str s => s.isEmpty
  | Json.obj fields => fields.isEmpty
  | _ => false

/-- Whether Test 2 of `check_openwebui_models` (check_openwebui_models.py
lines 34-46) reaches its end without returning `False`: the response must
have status 200, its body must parse, `models['data']` must exist (it is a
raising subscript on the parsed dict), `len(models['data'])` must succeed,
and the per-model print loop must not raise. -/
def owuiModelsCallOk (o : HttpOutcome) : Bool :=
  match o with
  | HttpOutcome.resp status body =>
    if status = 200 then
      match body.jsonParse with
      | some (Json.obj fields) =>
        match jlookup fields "data" with
        | some d => pyLenOk d && iterSubscriptIdOk d
        | none => false
      | some _ => false
      | none => false
    else false
  | _ => false

/-- Whether Test 1 of `check_openwebui_models` (lines 22-31) passes: the GET
of the OpenWebUI root returned status 200 (any exception returns `False`). -/
def owuiRootCallOk (o : HttpOutcome) : Bool :=
  match o with
  | HttpOutcome.resp status _ => status = 200
  | _ => false

/-- The outcomes of the four HTTP calls `check_openwebui_models` issues:
the OpenWebUI root GET (Test 1), the vLLM `/v1/models` GET (Test 2), the
OpenWebUI `/health` GET (Test 3) and the OpenWebUI `/models` GET (Test 4). -/
structure OwuiWorld where
  rootCall : HttpOutcome
  vllmModelsCall : HttpOutcome
  owuiHealthCall : HttpOutcome
  owuiModelsPageCall : HttpOutcome

/-- `check_openwebui_models` (check_openwebui_models.py lines 15-80) as a
function of its four call outcomes.  Tests 1 and 2 `return False` on any
failure; Tests 3 and 4 only print inside their own try/except blocks and
never return or raise, after which the function returns `True`. -/
def check_openwebui_models (w : OwuiWorld) : Bool :=
  if owuiRootCallOk w.rootCall then
    if owuiModelsCallOk w.vllmModelsCall then true
    else false
  else false

/-- A parsed completion body whose `choices` entry is present but empty. -/
def emptyChoicesJson : Json := Json.obj [("choices", Json.arr [])]

/-- Claim C1, counterexample: on a 200 completion response whose body is the
JSON object with a present but empty `choices` array, `generate_text`
evaluates `result.get("choices", [{}])[0]`, whose default only covers a
missing key; the `[0]` on the empty list raises `IndexError`, which the
`except Exception` clause turns into an error result, not a success result
with empty text. -/
theorem claimC1_counterexample :
    generate_text (HttpOutcome.resp 200
        (Body.jsonBody "\x7b\"choices\": []\x7d" emptyChoicesJson)) =
      { status := "error", error := some "list index out of range" } ∧
    (generate_text (HttpOutcome.resp 200
        (Body.jsonBody "\x7b\"choices\": []\x7d" emptyChoicesJson))).status ≠ "success" := by
  exact ⟨rfl, by decide⟩

/-- Claim C1 (amended): on a 200 completion response whose parsed body is an
object with no `choices` key, `generate_text` returns a success result with
empty generated text; on a 200 response whose body has a present but empty
`choices` array, the internal `IndexError` is caught and an error result is
returned.  In both cases no exception propagates to the caller. -/
theorem claimC1_theorem :
    (∀ (raw : String) (fields : List (String × Json)),
        jlookup fields "choices" = none →
        generate_text (HttpOutcome.resp 200 (Body.jsonBody raw (Json.obj fields))) =
          { status := "success", response := some (Json.obj fields),
            generated_text := some (Json.str "") }) ∧
    (∀ raw : String,
        generate_text (HttpOutcome.resp 200 (Body.jsonBody raw emptyChoicesJson)) =
          { status := "error", error := some "list index out of range" }) := by
  constructor
  · intro raw fields h
    simp [generate_text, Body.jsonParse, extract_generated_text, pyGet, pyIndexZero, h,
      Except.bind, jlookup]
  · intro raw
    rfl

/-- Claim C1 witness: instantiating the missing-key case at the parsed body
`Json.obj []`. -/
theorem claimC1_witness :
    generate_text (HttpOutcome.resp 200 (Body.jsonBody "" (Json.obj []))) =
      { status := "success", response := some (Json.obj []),
        generated_text := some (Json.str "") } :=
  claimC1_theorem.1 "" [] rfl

/-- Claim C2: for every HTTP-layer outcome (any status code, any body shape,
connection error, timeout, or any other exception), `check_health` returns
exactly one of the five classified statuses.  The function is total over
`HttpOutcome`, every `except` branch of the source included, which is how
the embedding renders that no exception escapes to the caller. -/
theorem claimC2_theorem (o : HttpOutcome) :
    (check_health o).status = "healthy" ∨ (check_health o).status = "unhealthy" ∨
    (check_health o).status = "unreachable" ∨ (check_health o).status = "timeout" ∨
    (check_health o).status = "error" := by
  cases o with
  | resp s b =>
    by_cases hs : s = 200
    · subst hs; cases b <;> simp [check_health]
    · simp [check_health, hs]
  | connError e => simp [check_health]
  | timeoutErr e => simp [check_health]
  | otherExc e => simp [check_health]

/-- Claim C5, counterexample: a 200 response whose non-empty body does not
parse as JSON makes `response.json()` raise inside the 200 branch, and the
final `except Exception` clause returns an error result — so HTTP status 200
does not always yield the healthy classification. -/
theorem claimC5_counterexample :
    (check_health (HttpOutcome.resp 200 (Body.malformed "not json"))).status = "error" ∧
    (check_health (HttpOutcome.resp 200 (Body.malformed "not json"))).status ≠ "healthy" := by
  exact ⟨rfl, by decide⟩

/-- Claim C5 (amended): `check_health` classifies outcomes as follows.
A 200 response with a parseable body is healthy with the parsed JSON; a 200
response with empty content is healthy with the default OK marker; a 200
response with a non-empty unparseable body yields an error result (the
`JSONDecodeError` is caught); any other status yields unhealthy carrying the
status code and body text; a connection failure yields unreachable; a
timeout yields timeout; any other exception yields error. -/
theorem claimC5_theorem :
    (∀ (raw : String) (j : Json),
        check_health (HttpOutcome.resp 200 (Body.jsonBody raw j)) =
          { status := "healthy", response := some j }) ∧
    (check_health (HttpOutcome.resp 200 Body.empty) =
        { status := "healthy", response := some (Json.obj [("message", Json.str "OK")]) }) ∧
    (∀ raw : String,
        check_health (HttpOutcome.resp 200 (Body.malformed raw)) =
          { status := "error", error := some jsonDecodeErrorMsg }) ∧
    (∀ (s : Nat) (b : Body), s ≠ 200 →
        check_health (HttpOutcome.resp s b) =
          { status := "unhealthy", error := some ("HTTP " ++ toString s ++ ": " ++ b.text) }) ∧
    (∀ e : String, check_health (HttpOutcome.connError e) =
        { status := "unreachable",
          error := some "Cannot connect to vLLM service. Is it running?" }) ∧
    (∀ e : String, check_health (HttpOutcome.timeoutErr e) =
        { status := "timeout", error := some "Request timed out" }) ∧
    (∀ e : String, check_health (HttpOutcome.otherExc e) =
        { status := "error", error := some e }) := by
  refine ⟨fun raw j => rfl, rfl, fun raw => rfl, ?_, fun e => rfl, fun e => rfl, fun e => rfl⟩
  intro s b h
  simp [check_health, h]

/-- Claim C5 witness: the non-200 clause instantiated at status 503 with an
empty body. -/
theorem claimC5_witness :
    check_health (HttpOutcome.resp 503 Body.empty) =
      { status := "unhealthy",
        error := some ("HTTP " ++ toString (503 : Nat) ++ ": " ++ Body.empty.text) } :=
  claimC5_theorem.2.2.2.1 503 Body.empty (by decide)

/-- Claim C6, counterexample: `get_models` returns the very same result dict
for a non-200 response as for a generic exception whose message happens to
read the same — both carry status `"error"` (the source has no distinct
unhealthy tag in `get_models`), so a non-200 status cannot be said to yield
an Unhealthy variant distinct from the exception Error variant. -/
theorem claimC6_counterexample :
    get_models (HttpOutcome.resp 404 Body.empty) =
      get_models (HttpOutcome.otherExc "HTTP 404: ") ∧
    (404 : Nat) ≠ 200 ∧
    (get_models (HttpOutcome.resp 404 Body.empty)).status = "error" := by
  exact ⟨rfl, by decide, rfl⟩

/-- The `/v1/models` body of the mocked scenario:
one model with id `m1` and `max_model_len` 4096. -/
def mockModelsJson : Json :=
  Json.obj [("data", Json.arr [Json.obj [("id", Json.str "m1"), ("max_model_len", Json.num 4096)]])]

/-- Claim C6 (amended): on a 200 response with a parseable body,
`get_models` returns status `"success"` with the parsed JSON; the element
loop maps each `data` entry to a `ModelInfo` with its required `id` and
optional `max_model_len`, so the mocked body yields exactly one `ModelInfo`
with id `"m1"` and length 4096 and an empty `data` array yields the empty
list.  On any non-200 status the result carries the status code and body
text but under the same `"error"` status tag as the exception cases (no
separate unhealthy tag exists in this function), with no models; every
exception also yields an `"error"` result with no models. -/
theorem claimC6_theorem :
    (∀ (raw : String) (j : Json),
        get_models (HttpOutcome.resp 200 (Body.jsonBody raw j)) =
          { status := "success", models := some j }) ∧
    (modelInfos [Json.obj [("id", Json.str "m1"), ("max_model_len", Json.num 4096)]] =
        Except.ok [{ id := Json.str "m1", max_model_len := some (Json.num 4096) }]) ∧
    (modelInfos [] = Except.ok []) ∧
    (∀ (fields : List (String × Json)) (i : Json),
        jlookup fields "id" = some i →
        extractModelInfo (Json.obj fields) =
          Except.ok { id := i, max_model_len := jlookup fields "max_model_len" }) ∧
    (∀ (s : Nat) (b : Body), s ≠ 200 →
        get_models (HttpOutcome.resp s b) =
          { status := "error", error := some ("HTTP " ++ toString s ++ ": " ++ b.text) }) ∧
    (∀ e : String, get_models (HttpOutcome.connError e) =
        { status := "error", error := some e }) ∧
    (∀ e : String, get_models (HttpOutcome.otherExc e) =
        { status := "error", error := some e }) := by
  refine ⟨fun raw j => rfl, rfl, rfl, ?_, ?_, fun e => rfl, fun e => rfl⟩
  · intro fields i h
    simp [extractModelInfo, h]
  · intro s b h
    simp [get_models, h]

/-- Claim C6 witness: the non-200 clause instantiated at status 500, and the
per-element clause instantiated at the mocked model entry. -/
theorem claimC6_witness :
    get_models (HttpOutcome.resp 500 Body.empty) =
      { status := "error",
        error := some ("HTTP " ++ toString (500 : Nat) ++ ": " ++ Body.empty.text) } ∧
    extractModelInfo (Json.obj [("id", Json.str "m1")]) =
      Except.ok { id := Json.str "m1",
                  max_model_len := jlookup [("id", Json.str "m1")] "max_model_len" } :=
  ⟨claimC6_theorem.2.2.2.2.1 500 Body.empty (by decide),
   claimC6_theorem.2.2.2.1 [("id", Json.str "m1")] (Json.str "m1") rfl⟩

/-- Claim C3 (code bug): `VLLMChecker.__init__` assigns
`self.session.timeout = 30`, but the requests library never consults a
`timeout` attribute on a Session object, and none of the three `VLLMChecker`
call sites passes a `timeout=` keyword — so every network call the probe
class issues has no effective timeout and can block indefinitely on an
unresponsive server.  The standalone scripts do pass explicit per-call
timeouts (30s for the generation POST, 10s for the metadata GETs). -/
theorem claimC3_theorem (u : String) :
    (VLLMChecker.make u).session_timeout_attr = some 30 ∧
    effective_timeout (health_request (VLLMChecker.make u)) = none ∧
    effective_timeout (models_request (VLLMChecker.make u)) = none ∧
    effective_timeout (chat_request (VLLMChecker.make u)) = none ∧
    effective_timeout simple_test_request = some 30 ∧
    effective_timeout owui_root_request = some 10 ∧
    effective_timeout owui_vllm_models_request = some 10 :=
  ⟨rfl, rfl, rfl, rfl, rfl, rfl, rfl⟩

/-- Claim C4, counterexample: the `__main__` block of simple_vllm_test.py
never calls `sys.exit`, so on a connection-refused outcome the probe fails
(`test_vllm_simple` returns `False`) yet the process still exits with
code 0, contradicting "exit code 0 iff all mandatory probes succeeded". -/
theorem claimC4_counterexample :
    test_vllm_simple (HttpOutcome.connError "Connection refused") = false ∧
    simple_main_exit_code (HttpOutcome.connError "Connection refused") = 0 :=
  ⟨rfl, rfl⟩

/-- Claim C4 (amended): for check_vllm.py, whenever the comprehensive test
run completes without an uncaught exception, the process exit code is 0 iff
every recorded test has a passing status (`"success"` or `"healthy"`), and
it is 1 otherwise; simple_vllm_test.py performs no `sys.exit`, so its
process exit code is 0 regardless of the probe's outcome. -/
theorem claimC4_theorem :
    (∀ (w : World) (tests : List (String × String)),
        run_comprehensive_test w = Except.ok tests →
        ((main_exit_code w = Except.ok 0 ↔
            ∀ t ∈ tests, t.2 = "success" ∨ t.2 = "healthy") ∧
         (main_exit_code w = Except.ok 0 ∨ main_exit_code w = Except.ok 1))) ∧
    (∀ o : HttpOutcome, simple_main_exit_code o = 0) := by
  constructor
  · intro w tests h
    have hm : main_exit_code w =
        Except.ok (if countSuccessful tests = tests.length then 0 else 1) := by
      simp [main_exit_code, h]
    have hiff : countSuccessful tests = tests.length ↔
        ∀ t ∈ tests, t.2 = "success" ∨ t.2 = "healthy" := by
      unfold countSuccessful
      rw [List.countP_eq_length]
      constructor
      · intro hall t ht
        simpa using hall t ht
      · intro hall t ht
        simpa using hall t ht
    constructor
    · rw [hm, ← hiff]
      by_cases hc : countSuccessful tests = tests.length
      · simp [hc]
      · simp [hc]
    · rw [hm]
      by_cases hc : countSuccessful tests = tests.length
      · simp [hc]
      · simp [hc]
  · intro o
    simp [simple_main_exit_code]

/-- The completion body of the mocked scenario. -/
def mockCompletionJson : Json :=
  Json.obj [("choices",
    Json.arr [Json.obj [("message", Json.obj [("content", Json.str "Hi there!")])]])]

/-- Raw text of the mocked completion body. -/
def mockCompletionRaw : String :=
  "\x7b\"choices\": [\x7b\"message\": \x7b\"content\": \"Hi there!\"\x7d\x7d]\x7d"

/-- Raw text of the mocked `/v1/models` body. -/
def mockModelsRaw : String :=
  "\x7b\"data\": [\x7b\"id\": \"m1\", \"max_model_len\": 4096\x7d]\x7d"

/-- A run of check_vllm.py in which all four calls come back well-formed. -/
def goodWorld : World :=
  { health := HttpOutcome.resp 200 Body.empty,
    models := HttpOutcome.resp 200 (Body.jsonBody mockModelsRaw mockModelsJson),
    gen1 := HttpOutcome.resp 200 (Body.jsonBody mockCompletionRaw mockCompletionJson),
    gen2 := HttpOutcome.resp 200 (Body.jsonBody mockCompletionRaw mockCompletionJson) }

/-- Claim C4 witness: on the all-healthy run the exit code is 0, and the
simple script's exit code is 0 as well. -/
theorem claimC4_witness :
    main_exit_code goodWorld = Except.ok 0 ∧
    simple_main_exit_code (HttpOutcome.resp 200
        (Body.jsonBody mockCompletionRaw mockCompletionJson)) = 0 := by
  refine ⟨?_, claimC4_theorem.2 _⟩
  exact (claimC4_theorem.1 goodWorld
      [("health", "healthy"), ("models", "success"),
       ("simple_generation", "success"), ("complex_generation", "success")] rfl).1.mpr
    (by decide)

/-- Claim C7: in `run_comprehensive_test`, when the health probe does not
come back healthy the method returns a report containing only the health
entry, and the models and generation outcomes are never consulted (the
result is identical for any other models/generation outcomes); when health
is healthy, a failing models probe does not abort the run — both generation
probes still execute and their statuses are recorded in the report
(provided the report printing itself does not raise, which a non-success
generation result never does). -/
theorem claimC7_theorem :
    (∀ (h m g1 g2 m' g1' g2' : HttpOutcome),
        (check_health h).status ≠ "healthy" →
        run_comprehensive_test ⟨h, m, g1, g2⟩ =
            Except.ok [("health", (check_health h).status)] ∧
        run_comprehensive_test ⟨h, m, g1, g2⟩ = run_comprehensive_test ⟨h, m', g1', g2'⟩) ∧
    (∀ (h m g1 g2 : HttpOutcome),
        (check_health h).status = "healthy" →
        (get_models m).status ≠ "success" →
        genPrintOk (generate_text g1) = true →
        genPrintOk (generate_text g2) = true →
        run_comprehensive_test ⟨h, m, g1, g2⟩ =
          Except.ok [("health", (check_health h).status),
            ("models", (get_models m).status),
            ("simple_generation", (generate_text g1).status),
            ("complex_generation", (generate_text g2).status)]) := by
  constructor
  · intro h m g1 g2 m' g1' g2' hh
    constructor <;> simp [run_comprehensive_test, hh]
  · intro h m g1 g2 hh hm hg1 hg2
    simp [run_comprehensive_test, hh, modelsStepOk, hm, hg1, hg2]

/-- Claim C7 witness: a refused health call short-circuits the run to the
single health entry; with health passing and the models call failing with
HTTP 500, both generation probes (here: refused connections) are still
recorded. -/
theorem claimC7_witness :
    run_comprehensive_test
        ⟨HttpOutcome.connError "Connection refused",
         HttpOutcome.resp 200 (Body.jsonBody mockModelsRaw mockModelsJson),
         HttpOutcome.resp 200 (Body.jsonBody mockCompletionRaw mockCompletionJson),
         HttpOutcome.resp 200 (Body.jsonBody mockCompletionRaw mockCompletionJson)⟩ =
      Except.ok [("health", "unreachable")] ∧
    run_comprehensive_test
        ⟨HttpOutcome.resp 200 Body.empty, HttpOutcome.resp 500 Body.empty,
         HttpOutcome.connError "refused", HttpOutcome.connError "refused"⟩ =
      Except.ok [("health", "healthy"), ("models", "error"),
        ("simple_generation", "error"), ("complex_generation", "error")] := by
  constructor
  · exact (claimC7_theorem.1 (HttpOutcome.connError "Connection refused")
      (HttpOutcome.resp 200 (Body.jsonBody mockModelsRaw mockModelsJson))
      (HttpOutcome.resp 200 (Body.jsonBody mockCompletionRaw mockCompletionJson))
      (HttpOutcome.resp 200 (Body.jsonBody mockCompletionRaw mockCompletionJson))
      (HttpOutcome.connError "") (HttpOutcome.connError "") (HttpOutcome.connError "")
      (by decide)).1
  · exact claimC7_theorem.2 (HttpOutcome.resp 200 Body.empty)
      (HttpOutcome.resp 500 Body.empty)
      (HttpOutcome.connError "refused") (HttpOutcome.connError "refused")
      (by decide) (by decide) (by decide) (by decide)

/-- Claim C8: with no command-line argument beyond the program name, `main`
probes `http://localhost:8000`; with at least one argument, the first
argument (normalized by stripping trailing slashes, which leaves a
slash-free URL unchanged) is the base URL of every request the constructed
checker issues. -/
theorem claimC8_theorem :
    (∀ prog : String, (main_checker [prog]).base_url = "http://localhost:8000") ∧
    (main_checker []).base_url = "http://localhost:8000" ∧
    (∀ (prog a : String) (rest : List String),
        main_base_url (prog :: a :: rest) = a ∧
        (main_checker (prog :: a :: rest)).base_url = rstripSlash a ∧
        health_request (main_checker (prog :: a :: rest)) =
          { url := rstripSlash a ++ "/health", timeout_kwarg := none } ∧
        models_request (main_checker (prog :: a :: rest)) =
          { url := rstripSlash a ++ "/v1/models", timeout_kwarg := none } ∧
        chat_request (main_checker (prog :: a :: rest)) =
          { url := rstripSlash a ++ "/v1/chat/completions", timeout_kwarg := none }) :=
  ⟨fun _ => rfl, rfl, fun _ _ _ => ⟨rfl, rfl, rfl, rfl, rfl⟩⟩

/-- Dropping a block of leading slashes before a list leaves `dropWhile` of
the slash predicate unchanged. -/
theorem dropWhile_slash_replicate (n : Nat) (l : List Char) :
    List.dropWhile (fun c => c == '/') (List.replicate n '/' ++ l) =
      List.dropWhile (fun c => c == '/') l := by
  induction n with
  | zero => rfl
  | succ k ih => simp [List.replicate_succ, List.dropWhile_cons, ih]

/-- `dropWhile` is idempotent. -/
theorem dropWhile_self_idem (p : Char → Bool) (l : List Char) :
    List.dropWhile p (List.dropWhile p l) = List.dropWhile p l := by
  induction l with
  | nil => rfl
  | cons a l ih =>
    by_cases hpa : p a = true
    · simp [List.dropWhile_cons, hpa, ih]
    · simp [List.dropWhile_cons, hpa]

/-- Data of a string with a char-list appended. -/
theorem data_append_mk (u : String) (l : List Char) :
    (u ++ String.mk l).data = u.data ++ l := by
  cases u
  rfl

/-- Appending trailing slashes does not change the `rstrip('/')`
normalization. -/
theorem rstripSlash_append_slashes (u : String) (n : Nat) :
    rstripSlash (u ++ String.mk (List.replicate n '/')) = rstripSlash u := by
  unfold rstripSlash
  rw [data_append_mk, List.reverse_append, List.reverse_replicate,
    dropWhile_slash_replicate]

/-- The `rstrip('/')` normalization is idempotent. -/
theorem rstripSlash_idem (u : String) : rstripSlash (rstripSlash u) = rstripSlash u := by
  show String.mk ((((u.data.reverse.dropWhile (fun c => c == '/')).reverse).reverse.dropWhile
      (fun c => c == '/')).reverse) = _
  rw [List.reverse_reverse, dropWhile_self_idem]
  rfl

/-- Claim C9: the constructor's `base_url.rstrip('/')` normalization makes
constructing the checker from `u` and from `u` followed by any number of
trailing slashes store the same base URL — hence issue identical request
URLs — and the normalization is idempotent. -/
theorem claimC9_theorem (u : String) (n : Nat) :
    VLLMChecker.make (u ++ String.mk (List.replicate n '/')) = VLLMChecker.make u ∧
    (VLLMChecker.make (u ++ String.mk (List.replicate n '/'))).base_url =
      (VLLMChecker.make u).base_url ∧
    rstripSlash (rstripSlash u) = rstripSlash u ∧
    health_request (VLLMChecker.make (u ++ String.mk (List.replicate n '/'))) =
      health_request (VLLMChecker.make u) ∧
    models_request (VLLMChecker.make (u ++ String.mk (List.replicate n '/'))) =
      models_request (VLLMChecker.make u) ∧
    chat_request (VLLMChecker.make (u ++ String.mk (List.replicate n '/'))) =
      chat_request (VLLMChecker.make u) := by
  have hb := rstripSlash_append_slashes u n
  refine ⟨?_, ?_, rstripSlash_idem u, ?_, ?_, ?_⟩ <;>
    simp [VLLMChecker.make, health_request, models_request, chat_request, hb]

/-- Claim C10, counterexample: both the OpenWebUI root GET and the vLLM
`/v1/models` GET return status 200 and the models body parses (to the empty
JSON object), yet `check_openwebui_models` returns `False`, because
`models['data']` raises `KeyError` inside Test 2's try block — a parseable
body alone is not sufficient for a `True` return. -/
theorem claimC10_counterexample :
    check_openwebui_models
        { rootCall := HttpOutcome.resp 200 Body.empty,
          vllmModelsCall := HttpOutcome.resp 200 (Body.jsonBody "\x7b\x7d" (Json.obj [])),
          owuiHealthCall := HttpOutcome.resp 200 Body.empty,
          owuiModelsPageCall := HttpOutcome.resp 200 Body.empty } = false ∧
    (Body.jsonBody "\x7b\x7d" (Json.obj [])).jsonParse = some (Json.obj []) :=
  ⟨rfl, rfl⟩

/-- Claim C10 (amended): `check_openwebui_models` returns `True` exactly
when the OpenWebUI root GET returns status 200 and the vLLM `/v1/models`
GET returns status 200 with a body that parses to an object whose `data`
member exists and whose iteration produces only dicts containing an `id`
key; the outcomes of Tests 3 and 4 (OpenWebUI health and models page) never
affect the returned value. -/
theorem claimC10_theorem (w : OwuiWorld) (t3 t4 : HttpOutcome) :
    check_openwebui_models w =
      (owuiRootCallOk w.rootCall && owuiModelsCallOk w.vllmModelsCall) ∧
    check_openwebui_models
        { w with owuiHealthCall := t3, owuiModelsPageCall := t4 } =
      check_openwebui_models w := by
  constructor
  · cases h1 : owuiRootCallOk w.rootCall <;>
      cases h2 : owuiModelsCallOk w.vllmModelsCall <;>
      simp [check_openwebui_models, h1, h2]
  · rfl

end OpenWebUIProbe
